import Mathlib

/-!
Verification of the scheduled-post publication dispatcher of the socialgem
repository (`supabase/functions/publish-scheduled-posts/index.ts`).

The dispatcher is embedded shallowly:

* the three database tables touched by the function (`posts`, `post_content`,
  `social_accounts`) become lists of records inside a `DB` value;
* every `supabase.from(...).update(...)` becomes an explicit transformation of
  that `DB` value;
* the ambient environment (the two `new Date()` calls and the possible
  database errors returned by the supabase client) becomes an explicit `Env`
  record.  The supabase client never throws on a failed query: each call
  resolves to a `\x7b data, error \x7d` pair and the source decides what to do with
  the `error` component, so errors are modelled as data returned by `Env`;
* the per-platform publish operation is a parameter `pub : PublishFn` of the
  processing functions; the dispatcher instantiates it with
  `publishToSocialMedia`, exactly as the call site at line 89 of the source
  does.  Keeping it as a parameter lets non-invocation ("the publish operation
  is never called for this row") be stated as invariance in `pub`.

Timestamps are modelled as naturals: the source only ever compares ISO-8601
strings produced by `Date.toISOString`, whose lexicographic order agrees with
chronological order.
-/

/-- A row of the `social_accounts` table, restricted to the columns the
dispatcher reads (`user_id`, `platform`, `is_active`; the credential bundle is
opaque to the dispatcher and is carried along untouched as `credentials`). -/
structure SocialAccount where
  id : String
  user_id : String
  platform : String
  is_active : Bool
  credentials : String
  deriving Repr, DecidableEq

/-- A row of the `post_content` table: the columns selected by the dispatcher
(`id`, `platform`, `content_text`, `hashtags`) together with the outcome
columns it writes (`published_url`, `published_at`, `error_message`). -/
structure PostContentRow where
  id : String
  post_id : String
  platform : String
  content_text : String
  hashtags : List String
  published_url : Option String
  published_at : Option Nat
  error_message : Option String
  deriving Repr, DecidableEq

/-- A row of the `posts` table, restricted to the columns the dispatcher
selects plus the `status` column it updates. -/
structure PostRow where
  id : String
  user_id : String
  title : String
  media_ids : List String
  scheduled_for : Option Nat
  status : String
  deriving Repr, DecidableEq

/-- The slice of the database the dispatcher touches. -/
structure DB where
  posts : List PostRow
  post_content : List PostContentRow
  social_accounts : List SocialAccount
  deriving Repr, DecidableEq

/-- One element of the batch fetched at lines 25–42 of the source: a due post
joined with its `post_content` rows. -/
structure DuePost where
  post : PostRow
  content : List PostContentRow
  deriving Repr, DecidableEq

/-- Result of one publish attempt (the `\x7b url \x7d` object resolved by a
publish function on success). -/
structure PublishResult where
  url : String
  deriving Repr, DecidableEq

/-- One entry of the `results` array of the run summary: either the normal
`\x7bpost_id, title, success, failed\x7d` record pushed at line 122, or the
`\x7bpost_id, title, error\x7d` record pushed at line 134 on the post-level error
path. -/
inductive PostResult where
  | counts : String → String → Nat → Nat → PostResult
  | errored : String → String → String → PostResult
  deriving Repr, DecidableEq

/-- The three response shapes of the function: the 200 "nothing to do"
response of line 47 (body `\x7bmessage, processed: 0\x7d`), the 200 completion
response of line 142 (body `\x7bmessage, processed, results\x7d`), and the 500
response of line 155 (body `\x7berror\x7d`). -/
inductive Response where
  | noDue : String → Nat → Response
  | completed : String → Nat → List PostResult → Response
  | serverError : String → Response
  deriving Repr, DecidableEq

/-- The ambient environment of one invocation: the timestamp taken at line 23,
the timestamp taken at line 101, and the `error` components the supabase
client reports for the posts query (line 25), for the `status = publishing`
update of a given post (line 60), and for the accounts query of a given user
(line 67).  A `none` means the call succeeds. -/
structure Env where
  now : Nat
  pubNow : Nat
  fetchPostsError : Option String
  publishingUpdateError : String → Option String
  accountsError : String → Option String

/-- Type of the per-platform publish operation
(`publishToSocialMedia(platform, content, hashtags, mediaIds, account)`). -/
def PublishFn : Type :=
  String → String → List String → List String → SocialAccount → Except String PublishResult

/-- Line 172 of the source: the text handed to the platform-specific publish
function is the caption, a blank line (two newline characters), then the
hashtags joined by single spaces. -/
def fullContent (content : String) (hashtags : List String) : String :=
  content ++ "\n\n" ++ String.intercalate " " hashtags

/-- Lines 188–194: the Instagram variant unconditionally fails. -/
def publishToInstagram (content : String) (mediaIds : List String)
    (account : SocialAccount) : Except String PublishResult :=
  Except.error "Instagram API nécessite une configuration OAuth complète avec un compte Business"

/-- Lines 196–202: the Facebook variant unconditionally fails. -/
def publishToFacebook (content : String) (mediaIds : List String)
    (account : SocialAccount) : Except String PublishResult :=
  Except.error "Facebook API nécessite une configuration OAuth complète"

/-- Lines 204–210: the TikTok variant unconditionally fails. -/
def publishToTikTok (content : String) (mediaIds : List String)
    (account : SocialAccount) : Except String PublishResult :=
  Except.error "TikTok API nécessite une configuration OAuth complète"

/-- Lines 212–218: the Pinterest variant unconditionally fails. -/
def publishToPinterest (content : String) (mediaIds : List String)
    (account : SocialAccount) : Except String PublishResult :=
  Except.error "Pinterest API nécessite une configuration OAuth complète"

/-- Lines 165–186: assemble the full text and dispatch on the platform name;
an unknown platform name raises `Plateforme non supportée: <platform>`. -/
def publishToSocialMedia (platform content : String) (hashtags mediaIds : List String)
    (account : SocialAccount) : Except String PublishResult :=
  if platform == "instagram" then
    publishToInstagram (fullContent content hashtags) mediaIds account
  else if platform == "facebook" then
    publishToFacebook (fullContent content hashtags) mediaIds account
  else if platform == "tiktok" then
    publishToTikTok (fullContent content hashtags) mediaIds account
  else if platform == "pinterest" then
    publishToPinterest (fullContent content hashtags) mediaIds account
  else
    Except.error ("Plateforme non supportée: " ++ platform)

/-- The due-selection predicate of lines 40–41:
`status = 'scheduled' AND scheduled_for <= now`.  A SQL `lte` comparison is
false when `scheduled_for` is NULL. -/
def isDue (now : Nat) (p : PostRow) : Bool :=
  p.status == "scheduled" &&
    match p.scheduled_for with
    | some t => decide (t ≤ now)
    | none => false

/-- Lines 25–42: select at most 10 due posts, each joined with its
`post_content` rows. -/
def selectDuePosts (db : DB) (now : Nat) : List DuePost :=
  ((db.posts.filter (isDue now)).take 10).map fun p =>
    { post := p, content := db.post_content.filter (fun r => r.post_id == p.id) }

/-- `UPDATE posts SET status = st WHERE id = pid` (lines 60–63, 117–120,
129–132 of the source). -/
def updatePostStatus (db : DB) (pid st : String) : DB :=
  { db with posts := db.posts.map fun p => if p.id == pid then { p with status := st } else p }

/-- `UPDATE post_content SET ... WHERE id = cid`, with `g` the record update
(lines 80–83, 97–104, 108–111 of the source). -/
def updateContentRow (db : DB) (cid : String) (g : PostContentRow → PostContentRow) : DB :=
  { db with post_content := db.post_content.map fun r => if r.id == cid then g r else r }

/-- The record update of lines 82 and 110: set only `error_message`. -/
def setError (m : String) (r : PostContentRow) : PostContentRow :=
  { r with error_message := some m }

/-- The record update of lines 99–103: set `published_url` and `published_at`
and clear `error_message`. -/
def setPublished (url : String) (t : Nat) (r : PostContentRow) : PostContentRow :=
  { r with published_url := some url, published_at := some t, error_message := none }

/-- The active accounts of a user as returned by the query of lines 67–71
(`user_id = uid AND is_active = true`). -/
def activeAccounts (db : DB) (uid : String) : List SocialAccount :=
  db.social_accounts.filter fun a => a.user_id == uid && a.is_active

/-- The `data` component of the accounts query at lines 67–71.  The source
destructures only `data` (the `error` component is neither bound nor checked),
so when the query fails the loop sees `data = null`, modelled as `none`. -/
def fetchedAccounts (env : Env) (db : DB) (uid : String) : Option (List SocialAccount) :=
  match env.accountsError uid with
  | some _ => none
  | none => some (activeAccounts db uid)

/-- Line 77: `socialAccounts?.find(acc => acc.platform === content.platform)` —
optional chaining on the possibly-null `data`. -/
def findAccount (data : Option (List SocialAccount)) (platform : String) : Option SocialAccount :=
  data.bind fun accs => accs.find? fun a => a.platform == platform

/-- Lines 76–114, body of the inner loop for one content row `c`.  The state
is the database together with the `successCount` and `failureCount` local
variables. -/
def processRow (pub : PublishFn) (env : Env) (data : Option (List SocialAccount))
    (mediaIds : List String) (st : DB × Nat × Nat) (c : PostContentRow) : DB × Nat × Nat :=
  let db := st.1
  let s := st.2.1
  let f := st.2.2
  match findAccount data c.platform with
  | none =>
      (updateContentRow db c.id (setError "Compte non connecté"), s, f + 1)
  | some account =>
      match pub c.platform c.content_text c.hashtags mediaIds account with
      | Except.ok result =>
          (updateContentRow db c.id (setPublished result.url env.pubNow), s + 1, f)
      | Except.error msg =>
          (updateContentRow db c.id (setError msg), s, f + 1)

/-- The inner `for (const content of post.post_content)` loop. -/
def runContentRows (pub : PublishFn) (env : Env) (data : Option (List SocialAccount))
    (mediaIds : List String) : List PostContentRow → DB × Nat × Nat → DB × Nat × Nat
  | [], st => st
  | c :: rest, st =>
      runContentRows pub env data mediaIds rest (processRow pub env data mediaIds st c)

/-- Lines 60–114 on the non-error path: mark the post `publishing`, fetch the
owner's active accounts, then run the inner loop starting from zero
counters. -/
def postRun (pub : PublishFn) (env : Env) (db : DB) (dp : DuePost) : DB × Nat × Nat :=
  let db1 := updatePostStatus db dp.post.id "publishing"
  runContentRows pub env (fetchedAccounts env db1 dp.post.user_id) dp.post.media_ids
    dp.content (db1, 0, 0)

/-- Lines 58–139, one iteration of the outer loop.  The only statement inside
the `try` that can throw is the explicit `if (updateError) throw updateError`
at line 65 (the accounts query error is ignored and the content-row updates
and the final status update are not checked), so the `catch` of line 128 is
entered exactly when the `status = 'publishing'` update reports an error; the
update then did not happen, the post is force-marked `failed` and an
error-shaped summary entry is pushed. -/
def processPost (pub : PublishFn) (env : Env) (db : DB) (dp : DuePost) : DB × PostResult :=
  match env.publishingUpdateError dp.post.id with
  | some e =>
      (updatePostStatus db dp.post.id "failed", PostResult.errored dp.post.id dp.post.title e)
  | none =>
      let r := postRun pub env db dp
      let s := r.2.1
      let f := r.2.2
      let finalStatus := if f = 0 then "published" else if 0 < s then "published" else "failed"
      (updatePostStatus r.1 dp.post.id finalStatus,
       PostResult.counts dp.post.id dp.post.title s f)

/-- The outer `for (const post of postsToPublish)` loop, accumulating the
`results` array in order. -/
def runBatch (pub : PublishFn) (env : Env) : List DuePost → DB → DB × List PostResult
  | [], db => (db, [])
  | dp :: rest, db =>
      let pr := processPost pub env db dp
      let r := runBatch pub env rest pr.1
      (r.1, pr.2 :: r.2)

/-- The whole handler (lines 18–152): a posts-query error becomes the 500
response; an empty batch returns immediately with `processed: 0`; otherwise
every selected post is processed and `processed` is the length of the
selection. -/
def dispatcher (env : Env) (db : DB) : DB × Response :=
  match env.fetchPostsError with
  | some e => (db, Response.serverError e)
  | none =>
      let due := selectDuePosts db env.now
      if due.isEmpty then
        (db, Response.noDue "Aucun post à publier" 0)
      else
        let r := runBatch publishToSocialMedia env due db
        (r.1, Response.completed "Publication terminée" due.length r.2)

/-- Observer: the status of the post with id `pid` (first matching row). -/
def postStatus? (db : DB) (pid : String) : Option String :=
  (db.posts.find? fun p => p.id == pid).map fun p => p.status

/-- Observer: the content row with id `cid` (first matching row). -/
def contentRow? (db : DB) (cid : String) : Option PostContentRow :=
  db.post_content.find? fun r => r.id == cid

/-- Observer: the `(success, failed)` counters of a normal summary entry. -/
def countsOf : PostResult → Option (Nat × Nat)
  | PostResult.counts _ _ s f => some (s, f)
  | PostResult.errored _ _ _ => none

/-- Observer: the `post_id` field of a summary entry. -/
def resultPostId : PostResult → String
  | PostResult.counts pid _ _ _ => pid
  | PostResult.errored pid _ _ => pid

/-- Observer: the `processed` field of a 200 response body. -/
def processedOf : Response → Option Nat
  | Response.noDue _ n => some n
  | Response.completed _ n _ => some n
  | Response.serverError _ => none

/-- The four platform names carried by a `case` of the `switch` at
lines 174–182. -/
def supportedPlatforms : List String :=
  ["instagram", "facebook", "tiktok", "pinterest"]

/-- Observer: the message thrown by the publish variant of each supported
platform (lines 193, 201, 209, 217). -/
def oauthMessage : String → String
  | "instagram" => "Instagram API nécessite une configuration OAuth complète avec un compte Business"
  | "facebook" => "Facebook API nécessite une configuration OAuth complète"
  | "tiktok" => "TikTok API nécessite une configuration OAuth complète"
  | "pinterest" => "Pinterest API nécessite une configuration OAuth complète"
  | _ => ""

/-!
### Concrete fixtures

Small database states used by the witnesses and counterexamples below:
one user `u1` owning one scheduled post `p1` (due at time 5) with a single
Instagram content row `c1`, and an active Instagram account.
-/

/-- An active Instagram account of user `u1`. -/
def acctW : SocialAccount := ⟨"a1", "u1", "instagram", true, "tok"⟩

/-- An active account of user `u1` for the unsupported platform `twitter`. -/
def acctX : SocialAccount := ⟨"a2", "u1", "twitter", true, "tok2"⟩

/-- The Instagram content row of post `p1`. -/
def rowW : PostContentRow := ⟨"c1", "p1", "instagram", "hello", ["#a", "#b"], none, none, none⟩

/-- A content row of post `p1` for the unsupported platform `twitter`. -/
def rowX : PostContentRow := ⟨"c2", "p1", "twitter", "hey", ["#z"], none, none, none⟩

/-- Post `p1` of user `u1`, scheduled for time 5. -/
def postW : PostRow := ⟨"p1", "u1", "t1", ["m1"], some 5, "scheduled"⟩

/-- Post `p1` joined with its single content row. -/
def dpW : DuePost := ⟨postW, [rowW]⟩

/-- Post `p1` joined with an empty list of content rows. -/
def dpEmpty : DuePost := ⟨postW, []⟩

/-- Database with post `p1`, its content row and the Instagram account. -/
def dbW : DB := ⟨[postW], [rowW], [acctW]⟩

/-- The empty database. -/
def dbEmpty : DB := ⟨[], [], []⟩

/-- Fault-free environment, invoked at time 10. -/
def envW : Env := ⟨10, 11, none, fun _ => none, fun _ => none⟩

/-- Environment in which every `status = 'publishing'` update reports a
database error. -/
def envUpdErr : Env := ⟨10, 11, none, fun _ => some "update failed", fun _ => none⟩

/-- Environment in which every `social_accounts` query reports a database
error (so its `data` is null). -/
def envAcctErr : Env := ⟨10, 11, none, fun _ => none, fun _ => some "database error"⟩

/-- An alternative publish operation that always succeeds, used to exercise
the success branch of the row-outcome logic and to witness that unmatched
rows never reach the publish operation. -/
def pubAlt : PublishFn := fun _ _ _ _ _ => Except.ok ⟨"https://example.com/post/1"⟩

/-! ### Helper lemmas about the table updates -/

lemma find?_updatePosts (pid st : String) :
    ∀ l : List PostRow,
      (l.map fun p => if p.id == pid then { p with status := st } else p).find?
          (fun p => p.id == pid)
        = (l.find? fun p => p.id == pid).map fun p => { p with status := st } := by
  intro l
  induction l with
  | nil => rfl
  | cons a l ih =>
      rw [List.map_cons]
      by_cases h : (a.id == pid) = true
      · rw [if_pos h,
          List.find?_cons_of_pos (p := fun (q : PostRow) => q.id == pid) _
            (show (({ a with status := st } : PostRow).id == pid) = true from h),
          List.find?_cons_of_pos (p := fun (q : PostRow) => q.id == pid) _ h]
        rfl
      · rw [if_neg h, List.find?_cons_of_neg (p := fun (q : PostRow) => q.id == pid) _ h,
          List.find?_cons_of_neg (p := fun (q : PostRow) => q.id == pid) _ h, ih]

lemma postStatus?_update_self (db : DB) (pid st : String) :
    postStatus? (updatePostStatus db pid st) pid = (postStatus? db pid).map fun _ => st := by
  unfold postStatus? updatePostStatus
  rw [find?_updatePosts]
  cases db.posts.find? fun p => p.id == pid <;> rfl

lemma postStatus?_congr {db1 db2 : DB} (h : db1.posts = db2.posts) (pid : String) :
    postStatus? db1 pid = postStatus? db2 pid := by
  unfold postStatus?
  rw [h]

lemma find?_updateContent_self (cid : String) (g : PostContentRow → PostContentRow)
    (hg : ∀ r, (g r).id = r.id) :
    ∀ l : List PostContentRow,
      (l.map fun r => if r.id == cid then g r else r).find? (fun r => r.id == cid)
        = (l.find? fun r => r.id == cid).map g := by
  intro l
  induction l with
  | nil => rfl
  | cons a l ih =>
      rw [List.map_cons]
      by_cases h : (a.id == cid) = true
      · have hga : ((g a).id == cid) = true := by rw [hg a]; exact h
        rw [if_pos h, List.find?_cons_of_pos (p := fun (q : PostContentRow) => q.id == cid) _ hga,
          List.find?_cons_of_pos (p := fun (q : PostContentRow) => q.id == cid) _ h]
        rfl
      · rw [if_neg h, List.find?_cons_of_neg (p := fun (q : PostContentRow) => q.id == cid) _ h,
          List.find?_cons_of_neg (p := fun (q : PostContentRow) => q.id == cid) _ h, ih]

lemma find?_updateContent_other (cid x : String) (g : PostContentRow → PostContentRow)
    (hg : ∀ r, (g r).id = r.id) (hne : cid ≠ x) :
    ∀ l : List PostContentRow,
      (l.map fun r => if r.id == cid then g r else r).find? (fun r => r.id == x)
        = l.find? fun r => r.id == x := by
  intro l
  induction l with
  | nil => rfl
  | cons a l ih =>
      rw [List.map_cons]
      by_cases h : (a.id == cid) = true
      · have hax : ¬ (a.id == x) = true := by
          intro hb
          exact hne ((beq_iff_eq.mp h).symm.trans (beq_iff_eq.mp hb))
        have hgax : ¬ ((g a).id == x) = true := by rw [hg a]; exact hax
        rw [if_pos h, List.find?_cons_of_neg (p := fun (q : PostContentRow) => q.id == x) _ hgax,
          List.find?_cons_of_neg (p := fun (q : PostContentRow) => q.id == x) _ hax, ih]
      · by_cases hx : (a.id == x) = true
        · rw [if_neg h, List.find?_cons_of_pos (p := fun (q : PostContentRow) => q.id == x) _ hx,
            List.find?_cons_of_pos (p := fun (q : PostContentRow) => q.id == x) _ hx]
        · rw [if_neg h, List.find?_cons_of_neg (p := fun (q : PostContentRow) => q.id == x) _ hx,
            List.find?_cons_of_neg (p := fun (q : PostContentRow) => q.id == x) _ hx, ih]

lemma contentRow?_update_self (db : DB) (cid : String) (g : PostContentRow → PostContentRow)
    (hg : ∀ r, (g r).id = r.id) :
    contentRow? (updateContentRow db cid g) cid = (contentRow? db cid).map g := by
  unfold contentRow? updateContentRow
  exact find?_updateContent_self cid g hg db.post_content

lemma contentRow?_update_other (db : DB) (cid x : String) (g : PostContentRow → PostContentRow)
    (hg : ∀ r, (g r).id = r.id) (hne : cid ≠ x) :
    contentRow? (updateContentRow db cid g) x = contentRow? db x := by
  unfold contentRow? updateContentRow
  exact find?_updateContent_other cid x g hg hne db.post_content

lemma setError_id (m : String) (r : PostContentRow) : (setError m r).id = r.id := rfl

lemma setPublished_id (url : String) (t : Nat) (r : PostContentRow) :
    (setPublished url t r).id = r.id := rfl

lemma setError_idem (m : String) (r : PostContentRow) :
    setError m (setError m r) = setError m r := rfl

lemma postStatus?_updateContentRow (db : DB) (cid : String) (g : PostContentRow → PostContentRow)
    (pid : String) : postStatus? (updateContentRow db cid g) pid = postStatus? db pid := rfl

lemma contentRow?_updatePostStatus (db : DB) (pid st cid : String) :
    contentRow? (updatePostStatus db pid st) cid = contentRow? db cid := rfl

/-! ### Helper lemmas about the processing loops -/

lemma processRow_match_none (pub : PublishFn) (env : Env) (data : Option (List SocialAccount))
    (mediaIds : List String) (db : DB) (s f : Nat) (c : PostContentRow)
    (h : findAccount data c.platform = none) :
    processRow pub env data mediaIds (db, s, f) c
      = (updateContentRow db c.id (setError "Compte non connecté"), s, f + 1) := by
  unfold processRow
  rw [h]

lemma processRow_match_ok (pub : PublishFn) (env : Env) (data : Option (List SocialAccount))
    (mediaIds : List String) (db : DB) (s f : Nat) (c : PostContentRow) (a : SocialAccount)
    (res : PublishResult)
    (h : findAccount data c.platform = some a)
    (hpub : pub c.platform c.content_text c.hashtags mediaIds a = Except.ok res) :
    processRow pub env data mediaIds (db, s, f) c
      = (updateContentRow db c.id (setPublished res.url env.pubNow), s + 1, f) := by
  unfold processRow
  rw [h]
  simp only
  rw [hpub]

lemma processRow_match_error (pub : PublishFn) (env : Env) (data : Option (List SocialAccount))
    (mediaIds : List String) (db : DB) (s f : Nat) (c : PostContentRow) (a : SocialAccount)
    (msg : String)
    (h : findAccount data c.platform = some a)
    (hpub : pub c.platform c.content_text c.hashtags mediaIds a = Except.error msg) :
    processRow pub env data mediaIds (db, s, f) c
      = (updateContentRow db c.id (setError msg), s, f + 1) := by
  unfold processRow
  rw [h]
  simp only
  rw [hpub]

lemma processRow_posts (pub : PublishFn) (env : Env) (data : Option (List SocialAccount))
    (mediaIds : List String) (st : DB × Nat × Nat) (c : PostContentRow) :
    (processRow pub env data mediaIds st c).1.posts = st.1.posts := by
  rcases st with ⟨db, s, f⟩
  rcases h : findAccount data c.platform with _ | a
  · rw [processRow_match_none pub env data mediaIds db s f c h]; rfl
  · rcases hp : pub c.platform c.content_text c.hashtags mediaIds a with msg | res
    · rw [processRow_match_error pub env data mediaIds db s f c a msg h hp]; rfl
    · rw [processRow_match_ok pub env data mediaIds db s f c a res h hp]; rfl

lemma processRow_counts (pub : PublishFn) (env : Env) (data : Option (List SocialAccount))
    (mediaIds : List String) (st : DB × Nat × Nat) (c : PostContentRow) :
    (processRow pub env data mediaIds st c).2.1 + (processRow pub env data mediaIds st c).2.2
      = st.2.1 + st.2.2 + 1 := by
  rcases st with ⟨db, s, f⟩
  rcases h : findAccount data c.platform with _ | a
  · rw [processRow_match_none pub env data mediaIds db s f c h]
    show s + (f + 1) = s + f + 1
    omega
  · rcases hp : pub c.platform c.content_text c.hashtags mediaIds a with msg | res
    · rw [processRow_match_error pub env data mediaIds db s f c a msg h hp]
      show s + (f + 1) = s + f + 1
      omega
    · rw [processRow_match_ok pub env data mediaIds db s f c a res h hp]
      show s + 1 + f = s + f + 1
      omega

lemma runContentRows_posts (pub : PublishFn) (env : Env) (data : Option (List SocialAccount))
    (mediaIds : List String) :
    ∀ (rows : List PostContentRow) (st : DB × Nat × Nat),
      (runContentRows pub env data mediaIds rows st).1.posts = st.1.posts := by
  intro rows
  induction rows with
  | nil => intro st; rfl
  | cons c rest ih =>
      intro st
      unfold runContentRows
      rw [ih]
      exact processRow_posts pub env data mediaIds st c

lemma runContentRows_counts (pub : PublishFn) (env : Env) (data : Option (List SocialAccount))
    (mediaIds : List String) :
    ∀ (rows : List PostContentRow) (st : DB × Nat × Nat),
      (runContentRows pub env data mediaIds rows st).2.1
          + (runContentRows pub env data mediaIds rows st).2.2
        = st.2.1 + st.2.2 + rows.length := by
  intro rows
  induction rows with
  | nil => intro st; simp [runContentRows]
  | cons c rest ih =>
      intro st
      unfold runContentRows
      rw [ih (processRow pub env data mediaIds st c)]
      rw [processRow_counts]
      simp [List.length_cons]
      omega

lemma findAccount_none (platform : String) : findAccount none platform = none := rfl

lemma runContentRows_none_counts (pub : PublishFn) (env : Env) (mediaIds : List String) :
    ∀ (rows : List PostContentRow) (db : DB) (s f : Nat),
      (runContentRows pub env none mediaIds rows (db, s, f)).2.1 = s
      ∧ (runContentRows pub env none mediaIds rows (db, s, f)).2.2 = f + rows.length := by
  intro rows
  induction rows with
  | nil => intro db s f; exact ⟨rfl, rfl⟩
  | cons c rest ih =>
      intro db s f
      unfold runContentRows
      rw [processRow_match_none pub env none mediaIds db s f c (findAccount_none c.platform)]
      refine ⟨(ih _ s (f + 1)).1, ?_⟩
      rw [(ih _ s (f + 1)).2, List.length_cons]
      omega

lemma runContentRows_none_stable (pub : PublishFn) (env : Env) (mediaIds : List String)
    (x : String) (r : PostContentRow) (hr : setError "Compte non connecté" r = r) :
    ∀ (rows : List PostContentRow) (st : DB × Nat × Nat),
      contentRow? st.1 x = some r →
      contentRow? (runContentRows pub env none mediaIds rows st).1 x = some r := by
  intro rows
  induction rows with
  | nil => intro st h; exact h
  | cons c rest ih =>
      intro st h
      rcases st with ⟨db, s, f⟩
      unfold runContentRows
      rw [processRow_match_none pub env none mediaIds db s f c (findAccount_none c.platform)]
      apply ih
      by_cases hc : c.id = x
      · subst hc
        show contentRow? (updateContentRow db c.id (setError "Compte non connecté")) c.id = some r
        rw [contentRow?_update_self db c.id _ (setError_id _)]
        show (contentRow? db c.id).map (setError "Compte non connecté") = some r
        rw [show contentRow? db c.id = some r from h]
        show some (setError "Compte non connecté" r) = some r
        rw [hr]
      · show contentRow? (updateContentRow db c.id (setError "Compte non connecté")) x = some r
        rw [contentRow?_update_other db c.id x _ (setError_id _) hc]
        exact h

lemma runContentRows_none_row (pub : PublishFn) (env : Env) (mediaIds : List String)
    (c : PostContentRow) (r0 : PostContentRow) :
    ∀ (rows : List PostContentRow) (st : DB × Nat × Nat),
      c ∈ rows →
      contentRow? st.1 c.id = some r0 →
      contentRow? (runContentRows pub env none mediaIds rows st).1 c.id
        = some (setError "Compte non connecté" r0) := by
  intro rows
  induction rows with
  | nil => intro st hmem; exact absurd hmem (List.not_mem_nil c)
  | cons d rest ih =>
      intro st hmem h
      rcases st with ⟨db, s, f⟩
      unfold runContentRows
      rw [processRow_match_none pub env none mediaIds db s f d (findAccount_none d.platform)]
      by_cases hid : d.id = c.id
      · apply runContentRows_none_stable pub env mediaIds c.id
          (setError "Compte non connecté" r0) (setError_idem _ r0)
        show contentRow? (updateContentRow db d.id (setError "Compte non connecté")) c.id
          = some (setError "Compte non connecté" r0)
        rw [hid, contentRow?_update_self db c.id _ (setError_id _),
          show contentRow? db c.id = some r0 from h]
        rfl
      · have hmem' : c ∈ rest := by
          rcases List.mem_cons.mp hmem with hcd | hrst
          · subst hcd
            exact absurd rfl hid
          · exact hrst
        apply ih _ hmem'
        show contentRow? (updateContentRow db d.id (setError "Compte non connecté")) c.id = some r0
        rw [contentRow?_update_other db d.id c.id _ (setError_id _) hid]
        exact h

/-! ### Helper lemmas about per-post processing and the batch loop -/

lemma processPost_errored (pub : PublishFn) (env : Env) (db : DB) (dp : DuePost) (e : String)
    (h : env.publishingUpdateError dp.post.id = some e) :
    processPost pub env db dp
      = (updatePostStatus db dp.post.id "failed",
         PostResult.errored dp.post.id dp.post.title e) := by
  unfold processPost
  rw [h]

lemma processPost_none (pub : PublishFn) (env : Env) (db : DB) (dp : DuePost)
    (h : env.publishingUpdateError dp.post.id = none) :
    processPost pub env db dp
      = (updatePostStatus (postRun pub env db dp).1 dp.post.id
           (if (postRun pub env db dp).2.2 = 0 then "published"
            else if 0 < (postRun pub env db dp).2.1 then "published" else "failed"),
         PostResult.counts dp.post.id dp.post.title
           (postRun pub env db dp).2.1 (postRun pub env db dp).2.2) := by
  unfold processPost
  rw [h]

lemma postRun_posts (pub : PublishFn) (env : Env) (db : DB) (dp : DuePost) :
    (postRun pub env db dp).1.posts = (updatePostStatus db dp.post.id "publishing").posts := by
  unfold postRun
  exact runContentRows_posts pub env _ dp.post.media_ids dp.content _

lemma processPost_resultId (pub : PublishFn) (env : Env) (db : DB) (dp : DuePost) :
    resultPostId (processPost pub env db dp).2 = dp.post.id := by
  rcases h : env.publishingUpdateError dp.post.id with _ | e
  · rw [processPost_none pub env db dp h]
    rfl
  · rw [processPost_errored pub env db dp e h]
    rfl

lemma runBatch_ids (pub : PublishFn) (env : Env) :
    ∀ (due : List DuePost) (db : DB),
      ((runBatch pub env due db).2).map resultPostId = due.map fun dp => dp.post.id := by
  intro due
  induction due with
  | nil => intro db; rfl
  | cons dp rest ih =>
      intro db
      unfold runBatch
      rw [List.map_cons, List.map_cons]
      rw [processPost_resultId pub env db dp, ih]

lemma postStatus?_processPost_none (pub : PublishFn) (env : Env) (db : DB) (dp : DuePost)
    (st0 : String)
    (h : env.publishingUpdateError dp.post.id = none)
    (hpost : postStatus? db dp.post.id = some st0) :
    postStatus? (processPost pub env db dp).1 dp.post.id
      = some (if (postRun pub env db dp).2.2 = 0 then "published"
              else if 0 < (postRun pub env db dp).2.1 then "published" else "failed") := by
  rw [processPost_none pub env db dp h]
  show postStatus? (updatePostStatus (postRun pub env db dp).1 dp.post.id _) dp.post.id = _
  rw [postStatus?_update_self]
  rw [postStatus?_congr (postRun_posts pub env db dp) dp.post.id]
  rw [postStatus?_update_self]
  rw [hpost]
  rfl

/-! ### Congruence of the loops in the publish operation -/

lemma processRow_congr (pub₁ pub₂ : PublishFn) (env : Env)
    (data : Option (List SocialAccount)) (mediaIds : List String)
    (st : DB × Nat × Nat) (c : PostContentRow)
    (h : ∀ a : SocialAccount,
      pub₁ c.platform c.content_text c.hashtags mediaIds a
        = pub₂ c.platform c.content_text c.hashtags mediaIds a) :
    processRow pub₁ env data mediaIds st c = processRow pub₂ env data mediaIds st c := by
  rcases st with ⟨db, s, f⟩
  rcases hm : findAccount data c.platform with _ | a
  · rw [processRow_match_none pub₁ env data mediaIds db s f c hm,
      processRow_match_none pub₂ env data mediaIds db s f c hm]
  · rcases hp : pub₁ c.platform c.content_text c.hashtags mediaIds a with msg | res
    · rw [processRow_match_error pub₁ env data mediaIds db s f c a msg hm hp,
        processRow_match_error pub₂ env data mediaIds db s f c a msg hm ((h a).symm.trans hp)]
    · rw [processRow_match_ok pub₁ env data mediaIds db s f c a res hm hp,
        processRow_match_ok pub₂ env data mediaIds db s f c a res hm ((h a).symm.trans hp)]

lemma runContentRows_congr (pub₁ pub₂ : PublishFn) (env : Env)
    (data : Option (List SocialAccount)) (mediaIds : List String) :
    ∀ (rows : List PostContentRow) (st : DB × Nat × Nat),
      (∀ (c : PostContentRow) (a : SocialAccount), c ∈ rows →
        pub₁ c.platform c.content_text c.hashtags mediaIds a
          = pub₂ c.platform c.content_text c.hashtags mediaIds a) →
      runContentRows pub₁ env data mediaIds rows st
        = runContentRows pub₂ env data mediaIds rows st := by
  intro rows
  induction rows with
  | nil => intro st h; rfl
  | cons c rest ih =>
      intro st h
      unfold runContentRows
      rw [processRow_congr pub₁ pub₂ env data mediaIds st c
        (fun a => h c a (List.mem_cons_self c rest))]
      exact ih _ (fun d a hd => h d a (List.mem_cons_of_mem c hd))

lemma processPost_congr (pub₁ pub₂ : PublishFn) (env : Env) (db : DB) (dp : DuePost)
    (h : ∀ (c : PostContentRow) (a : SocialAccount), c ∈ dp.content →
      pub₁ c.platform c.content_text c.hashtags dp.post.media_ids a
        = pub₂ c.platform c.content_text c.hashtags dp.post.media_ids a) :
    processPost pub₁ env db dp = processPost pub₂ env db dp := by
  have hrun : postRun pub₁ env db dp = postRun pub₂ env db dp := by
    unfold postRun
    exact runContentRows_congr pub₁ pub₂ env _ dp.post.media_ids dp.content _ h
  unfold processPost
  rcases env.publishingUpdateError dp.post.id with _ | e
  · rw [hrun]
  · rfl

/-! ### Claims -/

/-- C8: when no post satisfies the due-selection predicate, the dispatcher
returns the 200 response with `processed = 0` and the message
`Aucun post à publier`, and performs no writes at all: the database is
returned unchanged, so no post status and no content-row outcome field is
touched. -/
theorem c8_no_due_no_writes (env : Env) (db : DB)
    (hfetch : env.fetchPostsError = none)
    (hdue : selectDuePosts db env.now = []) :
    dispatcher env db = (db, Response.noDue "Aucun post à publier" 0) := by
  unfold dispatcher
  rw [hfetch]
  show (let due := selectDuePosts db env.now;
    if due.isEmpty then (db, Response.noDue "Aucun post à publier" 0)
    else
      let r := runBatch publishToSocialMedia env due db
      (r.1, Response.completed "Publication terminée" due.length r.2)) = _
  rw [hdue]
  rfl

/-- C8 witness: on the empty database nothing is due and the dispatcher is a
no-op returning `processed = 0`. -/
theorem c8_no_due_no_writes_witness :
    dispatcher envW dbEmpty = (dbEmpty, Response.noDue "Aucun post à publier" 0) :=
  c8_no_due_no_writes envW dbEmpty rfl rfl

/-- C9 counterexample: the text handed to the platform-specific publish
function is not the caption directly concatenated with the space-joined
hashtag list (with or without a separating space): the source inserts a blank
line (`\n\n`) between the caption and the hashtags (line 172). -/
theorem c9_counterexample :
    fullContent "a" ["#x"] ≠ "a" ++ String.intercalate " " ["#x"]
    ∧ fullContent "a" ["#x"] ≠ "a" ++ " " ++ String.intercalate " " ["#x"] := by
  constructor
  · decide
  · decide

/-- C9 (amended): for every content row with a matching active account the
dispatcher invokes the publish operation with exactly the row's caption text,
the row's hashtag list, the post's media references and the matched account —
its outcome depends on the publish operation only through that one call — and
the publish operation hands each platform variant the caption followed by a
blank line (two newline characters) followed by the space-joined hashtag
list. -/
theorem c9_publish_arguments (txt : String) (hs m : List String) (acct : SocialAccount) :
    fullContent txt hs = txt ++ "\n\n" ++ String.intercalate " " hs
    ∧ publishToSocialMedia "instagram" txt hs m acct
        = publishToInstagram (fullContent txt hs) m acct
    ∧ publishToSocialMedia "facebook" txt hs m acct
        = publishToFacebook (fullContent txt hs) m acct
    ∧ publishToSocialMedia "tiktok" txt hs m acct
        = publishToTikTok (fullContent txt hs) m acct
    ∧ publishToSocialMedia "pinterest" txt hs m acct
        = publishToPinterest (fullContent txt hs) m acct
    ∧ (∀ (pub₁ pub₂ : PublishFn) (env : Env) (data : Option (List SocialAccount))
         (mediaIds : List String) (st : DB × Nat × Nat) (c : PostContentRow)
         (a : SocialAccount),
         findAccount data c.platform = some a →
         pub₁ c.platform c.content_text c.hashtags mediaIds a
           = pub₂ c.platform c.content_text c.hashtags mediaIds a →
         processRow pub₁ env data mediaIds st c = processRow pub₂ env data mediaIds st c)
    ∧ (∀ (pub₁ pub₂ : PublishFn) (env : Env) (db : DB) (dp : DuePost),
         (∀ (c : PostContentRow) (a : SocialAccount), c ∈ dp.content →
            pub₁ c.platform c.content_text c.hashtags dp.post.media_ids a
              = pub₂ c.platform c.content_text c.hashtags dp.post.media_ids a) →
         processPost pub₁ env db dp = processPost pub₂ env db dp) := by
  refine ⟨rfl, rfl, rfl, rfl, rfl, ?_, ?_⟩
  · intro pub₁ pub₂ env data mediaIds st c a hm hpub
    rcases st with ⟨db, s, f⟩
    rcases hp : pub₁ c.platform c.content_text c.hashtags mediaIds a with msg | res
    · rw [processRow_match_error pub₁ env data mediaIds db s f c a msg hm hp,
        processRow_match_error pub₂ env data mediaIds db s f c a msg hm (hpub.symm.trans hp)]
    · rw [processRow_match_ok pub₁ env data mediaIds db s f c a res hm hp,
        processRow_match_ok pub₂ env data mediaIds db s f c a res hm (hpub.symm.trans hp)]
  · intro pub₁ pub₂ env db dp h
    exact processPost_congr pub₁ pub₂ env db dp h

/-- C9 witness: the blank-line assembly evaluated at a concrete caption and
hashtag list, and the dispatcher's indifference to the publish operation on a
post with no content rows. -/
theorem c9_publish_arguments_witness :
    fullContent "a" ["#x"] = "a" ++ "\n\n" ++ String.intercalate " " ["#x"]
    ∧ processPost publishToSocialMedia envW dbW dpEmpty
        = processPost pubAlt envW dbW dpEmpty :=
  ⟨(c9_publish_arguments "a" ["#x"] [] acctW).1,
   (c9_publish_arguments "a" ["#x"] [] acctW).2.2.2.2.2.2 publishToSocialMedia pubAlt
     envW dbW dpEmpty (fun c a hc => absurd hc (List.not_mem_nil c))⟩

/-- C1: for a post processed without a post-level error (the `status =
'publishing'` update succeeds), the final status persisted by the dispatcher
is `published` exactly when the failure counter of its summary entry is zero
or its success counter is positive, and `failed` exactly when the success
counter is zero and the failure counter is positive; in particular any post
with at least one successful content row ends `published` regardless of the
number of failed rows. -/
theorem c1_final_status_law (pub : PublishFn) (env : Env) (db : DB) (dp : DuePost)
    (s f : Nat) (st0 : String)
    (hflt : env.publishingUpdateError dp.post.id = none)
    (hpost : postStatus? db dp.post.id = some st0)
    (hcounts : countsOf (processPost pub env db dp).2 = some (s, f)) :
    (postStatus? (processPost pub env db dp).1 dp.post.id = some "published"
        ↔ (f = 0 ∨ 0 < s))
    ∧ (postStatus? (processPost pub env db dp).1 dp.post.id = some "failed"
        ↔ (s = 0 ∧ 0 < f)) := by
  have hc : (postRun pub env db dp).2.1 = s ∧ (postRun pub env db dp).2.2 = f := by
    rw [processPost_none pub env db dp hflt] at hcounts
    have : some ((postRun pub env db dp).2.1, (postRun pub env db dp).2.2) = some (s, f) :=
      hcounts
    have h2 := Option.some.inj this
    exact ⟨congrArg Prod.fst h2, congrArg Prod.snd h2⟩
  have hst := postStatus?_processPost_none pub env db dp st0 hflt hpost
  rw [hc.1, hc.2] at hst
  rw [hst]
  have hne : ("published" : String) ≠ "failed" := by decide
  by_cases hf : f = 0
  · rw [if_pos hf]
    constructor
    · simp [hf]
    · simp only [Option.some.injEq]
      constructor
      · intro hcon
        exact absurd hcon hne
      · intro hcon
        omega
  · by_cases hs : 0 < s
    · rw [if_neg hf, if_pos hs]
      constructor
      · simp [hs]
      · simp only [Option.some.injEq]
        constructor
        · intro hcon
          exact absurd hcon hne
        · intro hcon
          omega
    · rw [if_neg hf, if_neg hs]
      constructor
      · simp only [Option.some.injEq]
        constructor
        · intro hcon
          exact absurd hcon.symm hne
        · intro hcon
          rcases hcon with h0 | hpos
          · exact absurd h0 hf
          · exact absurd hpos hs
      · simp only [Option.some.injEq, true_iff]
        omega

/-- C1 witness: post `p1` has one Instagram row and an active account; the
stub publish fails, so the summary counts are `(0, 1)` and the persisted
status is `failed`, matching the law. -/
theorem c1_final_status_law_witness :
    (postStatus? (processPost publishToSocialMedia envW dbW dpW).1 dpW.post.id
        = some "published" ↔ ((1 : Nat) = 0 ∨ 0 < (0 : Nat)))
    ∧ (postStatus? (processPost publishToSocialMedia envW dbW dpW).1 dpW.post.id
        = some "failed" ↔ ((0 : Nat) = 0 ∧ 0 < (1 : Nat))) :=
  c1_final_status_law publishToSocialMedia envW dbW dpW 0 1 "scheduled" rfl rfl (by decide)

/-- C2: a content row whose platform has no matching account among the
fetched active accounts never reaches the publish operation (the row's
outcome is the same for every publish function), ends with `error_message`
set to the source's literal account-not-connected indicator
(`Compte non connecté`), increments the failure counter and leaves the
success counter alone, and the loop still processes every remaining sibling
row (one counter increment per row). -/
theorem c2_account_not_connected (pub₁ pub₂ : PublishFn) (env : Env)
    (data : Option (List SocialAccount)) (mediaIds : List String) (db : DB)
    (s f : Nat) (c r0 : PostContentRow) (rest : List PostContentRow)
    (hmatch : findAccount data c.platform = none)
    (hrow : contentRow? db c.id = some r0) :
    processRow pub₁ env data mediaIds (db, s, f) c
        = processRow pub₂ env data mediaIds (db, s, f) c
    ∧ contentRow? (processRow pub₁ env data mediaIds (db, s, f) c).1 c.id
        = some (setError "Compte non connecté" r0)
    ∧ (processRow pub₁ env data mediaIds (db, s, f) c).2.1 = s
    ∧ (processRow pub₁ env data mediaIds (db, s, f) c).2.2 = f + 1
    ∧ (runContentRows pub₁ env data mediaIds (c :: rest) (db, s, f)).2.1
          + (runContentRows pub₁ env data mediaIds (c :: rest) (db, s, f)).2.2
        = s + f + 1 + rest.length := by
  have h1 := processRow_match_none pub₁ env data mediaIds db s f c hmatch
  have h2 := processRow_match_none pub₂ env data mediaIds db s f c hmatch
  refine ⟨h1.trans h2.symm, ?_, ?_, ?_, ?_⟩
  · rw [h1]
    show contentRow? (updateContentRow db c.id (setError "Compte non connecté")) c.id = _
    rw [contentRow?_update_self db c.id _ (setError_id _), hrow]
    rfl
  · rw [h1]
  · rw [h1]
  · rw [runContentRows_counts pub₁ env data mediaIds (c :: rest) (db, s, f)]
    rw [List.length_cons]
    show s + f + (rest.length + 1) = s + f + 1 + rest.length
    omega

/-- C2 witness: with an empty fetched-accounts list the Instagram row `c1` is
recorded as not connected, the failure counter moves from 0 to 1, and the
outcome is identical under the always-failing stub and an always-succeeding
publish function. -/
theorem c2_account_not_connected_witness :
    processRow publishToSocialMedia envW (some []) ["m1"] (dbW, 0, 0) rowW
        = processRow pubAlt envW (some []) ["m1"] (dbW, 0, 0) rowW
    ∧ contentRow? (processRow publishToSocialMedia envW (some []) ["m1"] (dbW, 0, 0) rowW).1
          rowW.id
        = some (setError "Compte non connecté" rowW)
    ∧ (processRow publishToSocialMedia envW (some []) ["m1"] (dbW, 0, 0) rowW).2.1 = 0
    ∧ (processRow publishToSocialMedia envW (some []) ["m1"] (dbW, 0, 0) rowW).2.2 = 0 + 1
    ∧ (runContentRows publishToSocialMedia envW (some []) ["m1"] (rowW :: []) (dbW, 0, 0)).2.1
          + (runContentRows publishToSocialMedia envW (some []) ["m1"] (rowW :: []) (dbW, 0, 0)).2.2
        = 0 + 0 + 1 + List.length ([] : List PostContentRow) :=
  c2_account_not_connected publishToSocialMedia pubAlt envW (some []) ["m1"] dbW 0 0
    rowW rowW [] rfl rfl

/-- C5: for a content row whose publish operation is actually invoked
(a matching account exists): on success the dispatcher stores the returned
URL and the current time and clears `error_message` while bumping only the
success counter, and on failure it stores only the failure's message —
`published_url` and `published_at` keep their previous values — while bumping
only the failure counter; the success write carries `error_message = none`,
so an error message and the publish-success fields are never written by the
same attempt. -/
theorem c5_outcome_recording (pub : PublishFn) (env : Env)
    (data : Option (List SocialAccount)) (mediaIds : List String) (db : DB)
    (s f : Nat) (c r0 : PostContentRow) (a : SocialAccount)
    (hmatch : findAccount data c.platform = some a)
    (hrow : contentRow? db c.id = some r0) :
    (∀ res : PublishResult,
        pub c.platform c.content_text c.hashtags mediaIds a = Except.ok res →
        contentRow? (processRow pub env data mediaIds (db, s, f) c).1 c.id
            = some (setPublished res.url env.pubNow r0)
        ∧ (setPublished res.url env.pubNow r0).published_url = some res.url
        ∧ (setPublished res.url env.pubNow r0).published_at = some env.pubNow
        ∧ (setPublished res.url env.pubNow r0).error_message = none
        ∧ (processRow pub env data mediaIds (db, s, f) c).2.1 = s + 1
        ∧ (processRow pub env data mediaIds (db, s, f) c).2.2 = f)
    ∧ (∀ msg : String,
        pub c.platform c.content_text c.hashtags mediaIds a = Except.error msg →
        contentRow? (processRow pub env data mediaIds (db, s, f) c).1 c.id
            = some (setError msg r0)
        ∧ (setError msg r0).error_message = some msg
        ∧ (setError msg r0).published_url = r0.published_url
        ∧ (setError msg r0).published_at = r0.published_at
        ∧ (processRow pub env data mediaIds (db, s, f) c).2.1 = s
        ∧ (processRow pub env data mediaIds (db, s, f) c).2.2 = f + 1) := by
  constructor
  · intro res hpub
    have h1 := processRow_match_ok pub env data mediaIds db s f c a res hmatch hpub
    refine ⟨?_, rfl, rfl, rfl, ?_, ?_⟩
    · rw [h1]
      show contentRow? (updateContentRow db c.id (setPublished res.url env.pubNow)) c.id = _
      rw [contentRow?_update_self db c.id _ (setPublished_id _ _), hrow]
      rfl
    · rw [h1]
    · rw [h1]
  · intro msg hpub
    have h1 := processRow_match_error pub env data mediaIds db s f c a msg hmatch hpub
    refine ⟨?_, rfl, rfl, rfl, ?_, ?_⟩
    · rw [h1]
      show contentRow? (updateContentRow db c.id (setError msg)) c.id = _
      rw [contentRow?_update_self db c.id _ (setError_id _), hrow]
      rfl
    · rw [h1]
    · rw [h1]

/-- C5 witness: the success branch exercised with an always-succeeding
publish function and the failure branch with the source's stub, both on the
Instagram row `c1` matched to the active account. -/
theorem c5_outcome_recording_witness :
    (contentRow? (processRow pubAlt envW (some [acctW]) ["m1"] (dbW, 0, 0) rowW).1 rowW.id
        = some (setPublished "https://example.com/post/1" envW.pubNow rowW)
      ∧ (processRow pubAlt envW (some [acctW]) ["m1"] (dbW, 0, 0) rowW).2.1 = 0 + 1)
    ∧ (contentRow? (processRow publishToSocialMedia envW (some [acctW]) ["m1"]
            (dbW, 0, 0) rowW).1 rowW.id
        = some (setError (oauthMessage "instagram") rowW)
      ∧ (processRow publishToSocialMedia envW (some [acctW]) ["m1"]
            (dbW, 0, 0) rowW).2.2 = 0 + 1) :=
  ⟨⟨((c5_outcome_recording pubAlt envW (some [acctW]) ["m1"] dbW 0 0 rowW rowW acctW
        rfl rfl).1 ⟨"https://example.com/post/1"⟩ rfl).1,
    ((c5_outcome_recording pubAlt envW (some [acctW]) ["m1"] dbW 0 0 rowW rowW acctW
        rfl rfl).1 ⟨"https://example.com/post/1"⟩ rfl).2.2.2.2.1⟩,
   ⟨((c5_outcome_recording publishToSocialMedia envW (some [acctW]) ["m1"] dbW 0 0 rowW rowW
        acctW rfl rfl).2 (oauthMessage "instagram") rfl).1,
    ((c5_outcome_recording publishToSocialMedia envW (some [acctW]) ["m1"] dbW 0 0 rowW rowW
        acctW rfl rfl).2 (oauthMessage "instagram") rfl).2.2.2.2.2⟩⟩

/-- C6: when the `status = 'publishing'` update of a selected post reports an
error, the dispatcher forces that post's status to `failed`, records it in
the run summary with an error field instead of success/failed counts, and the
batch loop still produces one summary entry (in order) for every selected
post. -/
theorem c6_post_level_error (pub : PublishFn) (env : Env) (db : DB) (dp : DuePost)
    (e st0 : String)
    (hflt : env.publishingUpdateError dp.post.id = some e)
    (hpost : postStatus? db dp.post.id = some st0) :
    postStatus? (processPost pub env db dp).1 dp.post.id = some "failed"
    ∧ (processPost pub env db dp).2 = PostResult.errored dp.post.id dp.post.title e
    ∧ ∀ (due : List DuePost) (db0 : DB),
        ((runBatch pub env due db0).2).map resultPostId = due.map fun x => x.post.id := by
  have h1 := processPost_errored pub env db dp e hflt
  refine ⟨?_, ?_, ?_⟩
  · rw [h1]
    show postStatus? (updatePostStatus db dp.post.id "failed") dp.post.id = _
    rw [postStatus?_update_self, hpost]
    rfl
  · rw [h1]
  · intro due db0
    exact runBatch_ids pub env due db0

/-- C6 witness: with the `publishing` update failing on post `p1`, the post
is marked `failed` and its summary entry carries the error message. -/
theorem c6_post_level_error_witness :
    postStatus? (processPost publishToSocialMedia envUpdErr dbW dpW).1 dpW.post.id
        = some "failed"
    ∧ (processPost publishToSocialMedia envUpdErr dbW dpW).2
        = PostResult.errored dpW.post.id dpW.post.title "update failed"
    ∧ ∀ (due : List DuePost) (db0 : DB),
        ((runBatch publishToSocialMedia envUpdErr due db0).2).map resultPostId
          = due.map fun x => x.post.id :=
  c6_post_level_error publishToSocialMedia envUpdErr dbW dpW "update failed" "scheduled"
    rfl rfl

/-- C3: every selected post comes from the posts table with status
`scheduled` and a non-null `scheduled_for` at or before the invocation time
(so a future-scheduled post or one in any other status is never selected), at
most 10 posts are selected, and the `processed` field of the 200 response
equals the number of posts selected. -/
theorem c3_selection (env : Env) (db : DB)
    (hfetch : env.fetchPostsError = none) :
    (∀ dp ∈ selectDuePosts db env.now,
        dp.post ∈ db.posts ∧ dp.post.status = "scheduled"
          ∧ ∃ t, dp.post.scheduled_for = some t ∧ t ≤ env.now)
    ∧ (selectDuePosts db env.now).length ≤ 10
    ∧ processedOf (dispatcher env db).2 = some (selectDuePosts db env.now).length := by
  refine ⟨?_, ?_, ?_⟩
  · intro dp hdp
    unfold selectDuePosts at hdp
    rcases List.mem_map.mp hdp with ⟨p, hp, rfl⟩
    have hp2 : p ∈ db.posts.filter (isDue env.now) := List.take_subset 10 _ hp
    have hp3 := List.mem_filter.mp hp2
    have hdue := hp3.2
    unfold isDue at hdue
    rw [Bool.and_eq_true] at hdue
    refine ⟨hp3.1, beq_iff_eq.mp hdue.1, ?_⟩
    rcases hsf : p.scheduled_for with _ | t
    · rw [hsf] at hdue
      exact absurd hdue.2 (by simp)
    · rw [hsf] at hdue
      exact ⟨t, rfl, of_decide_eq_true hdue.2⟩
  · unfold selectDuePosts
    rw [List.length_map]
    exact List.length_take_le 10 _
  · unfold dispatcher
    rw [hfetch]
    show processedOf
        (let due := selectDuePosts db env.now;
         if due.isEmpty then (db, Response.noDue "Aucun post à publier" 0)
         else
           let r := runBatch publishToSocialMedia env due db
           (r.1, Response.completed "Publication terminée" due.length r.2)).2
      = some (selectDuePosts db env.now).length
    by_cases hdue : (selectDuePosts db env.now).isEmpty = true
    · have hnil : selectDuePosts db env.now = [] := List.isEmpty_iff.mp hdue
      rw [hnil]
      rfl
    · have hfalse : (selectDuePosts db env.now).isEmpty = false := by
        cases hb : (selectDuePosts db env.now).isEmpty with
        | true => exact absurd hb hdue
        | false => rfl
      show processedOf
          (if (selectDuePosts db env.now).isEmpty then
            (db, Response.noDue "Aucun post à publier" 0)
           else
            ((runBatch publishToSocialMedia env (selectDuePosts db env.now) db).1,
             Response.completed "Publication terminée" (selectDuePosts db env.now).length
               (runBatch publishToSocialMedia env (selectDuePosts db env.now) db).2)).2
        = some (selectDuePosts db env.now).length
    
      rw [if_neg (by rw [hfalse]; exact Bool.false_ne_true)]
      rfl

/-- C3 witness: post `p1` (due at time 5, invoked at time 10) is selected
from `dbW`, the batch size bound holds and `processed = 1`. -/
theorem c3_selection_witness :
    (∀ dp ∈ selectDuePosts dbW envW.now,
        dp.post ∈ dbW.posts ∧ dp.post.status = "scheduled"
          ∧ ∃ t, dp.post.scheduled_for = some t ∧ t ≤ envW.now)
    ∧ (selectDuePosts dbW envW.now).length ≤ 10
    ∧ processedOf (dispatcher envW dbW).2 = some (selectDuePosts dbW envW.now).length :=
  c3_selection envW dbW rfl

/-- C4: each of the four supported platform variants unconditionally fails
with its platform-specific OAuth-configuration message, and consequently a
post whose single content row targets a supported platform with a matching
active account ends with persisted status `failed`, the row's
`error_message` set to that OAuth message, and a summary entry of zero
successes and one failure. -/
theorem c4_oauth_stub_failure (env : Env) (db : DB) (dp : DuePost)
    (c r0 : PostContentRow) (a : SocialAccount) (st0 : String)
    (hcontent : dp.content = [c])
    (hplat : c.platform ∈ supportedPlatforms)
    (hflt : env.publishingUpdateError dp.post.id = none)
    (hacc : env.accountsError dp.post.user_id = none)
    (hfind : (activeAccounts db dp.post.user_id).find? (fun x => x.platform == c.platform)
        = some a)
    (hrow : contentRow? db c.id = some r0)
    (hpost : postStatus? db dp.post.id = some st0) :
    (∀ p ∈ supportedPlatforms, ∀ (txt : String) (hs m : List String) (acct : SocialAccount),
        publishToSocialMedia p txt hs m acct = Except.error (oauthMessage p))
    ∧ postStatus? (processPost publishToSocialMedia env db dp).1 dp.post.id = some "failed"
    ∧ contentRow? (processPost publishToSocialMedia env db dp).1 c.id
        = some (setError (oauthMessage c.platform) r0)
    ∧ (processPost publishToSocialMedia env db dp).2
        = PostResult.counts dp.post.id dp.post.title 0 1 := by
  have hvariants : ∀ p ∈ supportedPlatforms,
      ∀ (txt : String) (hs m : List String) (acct : SocialAccount),
        publishToSocialMedia p txt hs m acct = Except.error (oauthMessage p) := by
    intro p hp txt hs m acct
    have hp4 : p = "instagram" ∨ p = "facebook" ∨ p = "tiktok" ∨ p = "pinterest" := by
      simpa [supportedPlatforms] using hp
    rcases hp4 with rfl | rfl | rfl | rfl
    · rfl
    · rfl
    · rfl
    · rfl
  have hdata : fetchedAccounts env (updatePostStatus db dp.post.id "publishing")
      dp.post.user_id = some (activeAccounts db dp.post.user_id) := by
    unfold fetchedAccounts
    rw [hacc]
    rfl
  have hfind2 : findAccount (some (activeAccounts db dp.post.user_id)) c.platform = some a :=
    hfind
  have hpub : publishToSocialMedia c.platform c.content_text c.hashtags dp.post.media_ids a
      = Except.error (oauthMessage c.platform) :=
    hvariants c.platform hplat c.content_text c.hashtags dp.post.media_ids a
  have hrun : postRun publishToSocialMedia env db dp
      = (updateContentRow (updatePostStatus db dp.post.id "publishing") c.id
           (setError (oauthMessage c.platform)), 0, 1) := by
    unfold postRun
    show runContentRows publishToSocialMedia env
        (fetchedAccounts env (updatePostStatus db dp.post.id "publishing") dp.post.user_id)
        dp.post.media_ids dp.content (updatePostStatus db dp.post.id "publishing", 0, 0) = _
    rw [hdata, hcontent]
    show runContentRows publishToSocialMedia env (some (activeAccounts db dp.post.user_id))
        dp.post.media_ids []
        (processRow publishToSocialMedia env (some (activeAccounts db dp.post.user_id))
          dp.post.media_ids (updatePostStatus db dp.post.id "publishing", 0, 0) c) = _
    rw [processRow_match_error publishToSocialMedia env _ dp.post.media_ids
      (updatePostStatus db dp.post.id "publishing") 0 0 c a (oauthMessage c.platform)
      hfind2 hpub]
    rfl
  refine ⟨hvariants, ?_, ?_, ?_⟩
  · have hst := postStatus?_processPost_none publishToSocialMedia env db dp st0 hflt hpost
    rw [hrun] at hst
    simpa using hst
  · rw [processPost_none publishToSocialMedia env db dp hflt]
    show contentRow? (updatePostStatus (postRun publishToSocialMedia env db dp).1
        dp.post.id _) c.id = _
    rw [contentRow?_updatePostStatus, hrun]
    show contentRow? (updateContentRow (updatePostStatus db dp.post.id "publishing") c.id
        (setError (oauthMessage c.platform))) c.id = _
    rw [contentRow?_update_self _ c.id _ (setError_id _), contentRow?_updatePostStatus, hrow]
    rfl
  · rw [processPost_none publishToSocialMedia env db dp hflt, hrun]

/-- C4 witness: the concrete post `p1` with its Instagram row and active
Instagram account ends `failed` with the Instagram OAuth message recorded on
the row. -/
theorem c4_oauth_stub_failure_witness :
    (∀ p ∈ supportedPlatforms, ∀ (txt : String) (hs m : List String) (acct : SocialAccount),
        publishToSocialMedia p txt hs m acct = Except.error (oauthMessage p))
    ∧ postStatus? (processPost publishToSocialMedia envW dbW dpW).1 dpW.post.id
        = some "failed"
    ∧ contentRow? (processPost publishToSocialMedia envW dbW dpW).1 rowW.id
        = some (setError (oauthMessage rowW.platform) rowW)
    ∧ (processPost publishToSocialMedia envW dbW dpW).2
        = PostResult.counts dpW.post.id dpW.post.title 0 1 :=
  c4_oauth_stub_failure envW dbW dpW rowW rowW acctW "scheduled" rfl (by decide)
    rfl rfl (by decide) rfl rfl

/-- C7 counterexample: in `dbW` post `p1` is due with one Instagram row, and
the accounts query reports a database error for every user.  The claim says
the post is converted to the step-5 error path, with a summary entry carrying
an error field rather than success/failed counts — but the dispatcher
produces a normal counts entry `(0, 1)`: the source never reads the `error`
component of the accounts query (line 67 destructures only `data`), so the
row is merely recorded as not connected and the normal path completes. -/
theorem c7_counterexample :
    (dispatcher envAcctErr dbW).2
        = Response.completed "Publication terminée" 1 [PostResult.counts "p1" "t1" 0 1]
    ∧ (∀ r ∈ [PostResult.counts "p1" "t1" 0 1], countsOf r ≠ none)
    ∧ contentRow? (dispatcher envAcctErr dbW).1 "c1"
        = some (setError "Compte non connecté" rowW)
    ∧ postStatus? (dispatcher envAcctErr dbW).1 "p1" = some "failed" := by
  refine ⟨by decide, ?_, by decide, by decide⟩
  intro r hr
  rcases List.mem_singleton.mp hr with rfl
  decide

/-- C7 (amended): when the accounts query for a selected post's owner reports
a database error, the dispatcher ignores the error: the accounts data is
absent, every content row of the post is recorded as a content-level failure
with `error_message = Compte non connecté`, the post completes the normal
path with a counts summary entry of zero successes and one failure per
content row (status `failed` when the post has content rows, `published`
when it has none), and the batch loop still produces one summary entry for
every selected post. -/
theorem c7_accounts_error_ignored (pub : PublishFn) (env : Env) (db : DB) (dp : DuePost)
    (e st0 : String)
    (hacc : env.accountsError dp.post.user_id = some e)
    (hflt : env.publishingUpdateError dp.post.id = none)
    (hpost : postStatus? db dp.post.id = some st0) :
    (processPost pub env db dp).2
        = PostResult.counts dp.post.id dp.post.title 0 dp.content.length
    ∧ postStatus? (processPost pub env db dp).1 dp.post.id
        = some (if dp.content.isEmpty then "published" else "failed")
    ∧ (∀ c ∈ dp.content, ∀ r0 : PostContentRow, contentRow? db c.id = some r0 →
        contentRow? (processPost pub env db dp).1 c.id
          = some (setError "Compte non connecté" r0))
    ∧ ∀ (due : List DuePost) (db0 : DB),
        ((runBatch pub env due db0).2).map resultPostId = due.map fun x => x.post.id := by
  have hdata : fetchedAccounts env (updatePostStatus db dp.post.id "publishing")
      dp.post.user_id = none := by
    unfold fetchedAccounts
    rw [hacc]
  have hrun : postRun pub env db dp
      = runContentRows pub env none dp.post.media_ids dp.content
          (updatePostStatus db dp.post.id "publishing", 0, 0) := by
    unfold postRun
    show runContentRows pub env
        (fetchedAccounts env (updatePostStatus db dp.post.id "publishing") dp.post.user_id)
        dp.post.media_ids dp.content (updatePostStatus db dp.post.id "publishing", 0, 0) = _
    rw [hdata]
  have hcounts := runContentRows_none_counts pub env dp.post.media_ids dp.content
    (updatePostStatus db dp.post.id "publishing") 0 0
  have hs1 : (postRun pub env db dp).2.1 = 0 := by rw [hrun]; exact hcounts.1
  have hf1 : (postRun pub env db dp).2.2 = dp.content.length := by
    rw [hrun, hcounts.2]
    omega
  refine ⟨?_, ?_, ?_, ?_⟩
  · rw [processPost_none pub env db dp hflt]
    show PostResult.counts dp.post.id dp.post.title
        (postRun pub env db dp).2.1 (postRun pub env db dp).2.2 = _
    rw [hs1, hf1]
  · have hst := postStatus?_processPost_none pub env db dp st0 hflt hpost
    rw [hs1, hf1] at hst
    rw [hst]
    cases hc : dp.content with
    | nil => rfl
    | cons d rest => rfl
  · intro c hc r0 hr0
    rw [processPost_none pub env db dp hflt]
    show contentRow? (updatePostStatus (postRun pub env db dp).1 dp.post.id _) c.id = _
    rw [contentRow?_updatePostStatus, hrun]
    apply runContentRows_none_row pub env dp.post.media_ids c r0 dp.content
      (updatePostStatus db dp.post.id "publishing", 0, 0) hc
    show contentRow? (updatePostStatus db dp.post.id "publishing") c.id = some r0
    rw [contentRow?_updatePostStatus]
    exact hr0
  · intro due db0
    exact runBatch_ids pub env due db0

/-- C7 witness: the amended behavior evaluated on post `p1` with the
accounts query failing: counts entry `(0, 1)`, status `failed`, row `c1`
recorded as not connected. -/
theorem c7_accounts_error_ignored_witness :
    (processPost publishToSocialMedia envAcctErr dbW dpW).2
        = PostResult.counts dpW.post.id dpW.post.title 0 dpW.content.length
    ∧ postStatus? (processPost publishToSocialMedia envAcctErr dbW dpW).1 dpW.post.id
        = some (if dpW.content.isEmpty then "published" else "failed")
    ∧ (∀ c ∈ dpW.content, ∀ r0 : PostContentRow, contentRow? dbW c.id = some r0 →
        contentRow? (processPost publishToSocialMedia envAcctErr dbW dpW).1 c.id
          = some (setError "Compte non connecté" r0))
    ∧ ∀ (due : List DuePost) (db0 : DB),
        ((runBatch publishToSocialMedia envAcctErr due db0).2).map resultPostId
          = due.map fun x => x.post.id :=
  c7_accounts_error_ignored publishToSocialMedia envAcctErr dbW dpW "database error"
    "scheduled" rfl rfl rfl

/-- C10: a content row whose platform is none of the four supported names,
but which has a matching active account, makes the publish operation fail
with the unsupported-platform error naming that platform
(`Plateforme non supportée: <platform>`); the row is recorded as a
content-level failure (`error_message` set, failure counter incremented,
success counter untouched) and the loop still processes every sibling row. -/
theorem c10_unsupported_platform (env : Env) (data : Option (List SocialAccount))
    (mediaIds : List String) (db : DB) (s f : Nat) (c r0 : PostContentRow)
    (a : SocialAccount) (rest : List PostContentRow)
    (hplat : c.platform ∉ supportedPlatforms)
    (hmatch : findAccount data c.platform = some a)
    (hrow : contentRow? db c.id = some r0) :
    publishToSocialMedia c.platform c.content_text c.hashtags mediaIds a
        = Except.error ("Plateforme non supportée: " ++ c.platform)
    ∧ contentRow? (processRow publishToSocialMedia env data mediaIds (db, s, f) c).1 c.id
        = some (setError ("Plateforme non supportée: " ++ c.platform) r0)
    ∧ (processRow publishToSocialMedia env data mediaIds (db, s, f) c).2.1 = s
    ∧ (processRow publishToSocialMedia env data mediaIds (db, s, f) c).2.2 = f + 1
    ∧ (runContentRows publishToSocialMedia env data mediaIds (c :: rest) (db, s, f)).2.1
          + (runContentRows publishToSocialMedia env data mediaIds (c :: rest) (db, s, f)).2.2
        = s + f + 1 + rest.length := by
  have hne : c.platform ≠ "instagram" ∧ c.platform ≠ "facebook"
      ∧ c.platform ≠ "tiktok" ∧ c.platform ≠ "pinterest" := by
    refine ⟨?_, ?_, ?_, ?_⟩ <;>
      · intro hp
        exact hplat (by rw [hp]; decide)
  have hpub : publishToSocialMedia c.platform c.content_text c.hashtags mediaIds a
      = Except.error ("Plateforme non supportée: " ++ c.platform) := by
    unfold publishToSocialMedia
    rw [if_neg (by rw [beq_eq_false_iff_ne.mpr hne.1]; exact Bool.false_ne_true),
      if_neg (by rw [beq_eq_false_iff_ne.mpr hne.2.1]; exact Bool.false_ne_true),
      if_neg (by rw [beq_eq_false_iff_ne.mpr hne.2.2.1]; exact Bool.false_ne_true),
      if_neg (by rw [beq_eq_false_iff_ne.mpr hne.2.2.2]; exact Bool.false_ne_true)]
  have h1 := processRow_match_error publishToSocialMedia env data mediaIds db s f c a
    ("Plateforme non supportée: " ++ c.platform) hmatch hpub
  refine ⟨hpub, ?_, ?_, ?_, ?_⟩
  · rw [h1]
    show contentRow? (updateContentRow db c.id
        (setError ("Plateforme non supportée: " ++ c.platform))) c.id = _
    rw [contentRow?_update_self db c.id _ (setError_id _), hrow]
    rfl
  · rw [h1]
  · rw [h1]
  · rw [runContentRows_counts publishToSocialMedia env data mediaIds (c :: rest) (db, s, f)]
    rw [List.length_cons]
    show s + f + (rest.length + 1) = s + f + 1 + rest.length
    omega

/-- C10 witness: the `twitter` row `c2` with a matching active `twitter`
account fails with the unsupported-platform message and is counted as a
failure. -/
theorem c10_unsupported_platform_witness :
    publishToSocialMedia rowX.platform rowX.content_text rowX.hashtags ["m1"] acctX
        = Except.error ("Plateforme non supportée: " ++ rowX.platform)
    ∧ contentRow? (processRow publishToSocialMedia envW (some [acctX]) ["m1"]
          (⟨[postW], [rowX], [acctX]⟩, 0, 0) rowX).1 rowX.id
        = some (setError ("Plateforme non supportée: " ++ rowX.platform) rowX)
    ∧ (processRow publishToSocialMedia envW (some [acctX]) ["m1"]
          (⟨[postW], [rowX], [acctX]⟩, 0, 0) rowX).2.1 = 0
    ∧ (processRow publishToSocialMedia envW (some [acctX]) ["m1"]
          (⟨[postW], [rowX], [acctX]⟩, 0, 0) rowX).2.2 = 0 + 1
    ∧ (runContentRows publishToSocialMedia envW (some [acctX]) ["m1"] (rowX :: [])
          (⟨[postW], [rowX], [acctX]⟩, 0, 0)).2.1
          + (runContentRows publishToSocialMedia envW (some [acctX]) ["m1"] (rowX :: [])
              (⟨[postW], [rowX], [acctX]⟩, 0, 0)).2.2
        = 0 + 0 + 1 + List.length ([] : List PostContentRow) :=
  c10_unsupported_platform envW (some [acctX]) ["m1"] ⟨[postW], [rowX], [acctX]⟩ 0 0
    rowX rowX acctX [] (by decide) rfl rfl
